import Mathlib

/-
Shallow embedding of the Halide autoscheduler cost model generator
(src/src/CostModelGenerator.cpp).

The generator builds a symbolic tensor pipeline; we embed every Func as a
Lean function over real numbers.  Stage-axis indices are integers (the
convolutions read `w + k - 1` and the pools read `w*2 - 1`, which go
negative at the boundary and are handled by the zero boundary condition of
`pad_stages`).  Channel / feature / batch indices are naturals.  A Halide
`Func` whose pure definition is `0.0f` and that is then overwritten on a
reduction domain becomes an if-then-else on window membership; a `+=` over
an RDom becomes a `Finset.sum` over the corresponding range.
-/

namespace CostModelGen

noncomputable section

/-- All generator inputs of `CostModel` (CostModelGenerator.cpp lines
106-141): configuration scalars, the two raw feature tensors, the
whitening statistics, the sixteen weight tensors, and the extra training
inputs.  Tensors are embedded as total functions; the static shapes fixed
by `set_shape` only bound which entries the pipeline ever reads. -/
structure CostModelInputs where
  num_stages : ℕ
  batch_size : ℕ
  pipeline_features : ℕ → ℕ → ℤ → ℝ
  schedule_features : ℕ → ℕ → ℤ → ℝ
  pipeline_mean : ℕ → ℕ → ℝ
  pipeline_std : ℕ → ℕ → ℝ
  schedule_mean : ℕ → ℝ
  schedule_std : ℕ → ℝ
  head1_filter : ℕ → ℕ → ℕ → ℝ
  head1_bias : ℕ → ℝ
  head2_filter : ℕ → ℕ → ℝ
  head2_bias : ℕ → ℝ
  filter1 : ℕ → ℕ → ℕ → ℝ
  bias1 : ℕ → ℝ
  filter2 : ℕ → ℕ → ℕ → ℝ
  bias2 : ℕ → ℝ
  filter3 : ℕ → ℕ → ℕ → ℝ
  bias3 : ℕ → ℝ
  filter4 : ℕ → ℕ → ℕ → ℝ
  bias4 : ℕ → ℝ
  filter5 : ℕ → ℕ → ℕ → ℝ
  bias5 : ℕ → ℝ
  filter6 : ℕ → ℝ
  bias6 : ℝ
  learning_rate : ℝ
  timestep : ℕ
  true_runtime : ℕ → ℝ

/-- Channel-count constants from CostModelGenerator.cpp lines 175-182. -/
def head1_channels : ℕ := 24
def head1_w : ℕ := 56
def head1_h : ℕ := 7
def head2_channels : ℕ := 24
def head2_w : ℕ := 26
def conv1_channels : ℕ := 48
def conv2_channels : ℕ := 48
def conv3_channels : ℕ := 96
def conv4_channels : ℕ := 120
def conv5_channels : ℕ := 168
def conv_support : ℕ := 3

/-- Source: `Expr padded_stages = max(num_stages, 22);` (line 161). -/
def padded_stages (num_stages : ℕ) : ℕ := max num_stages 22

/-- Source: `Expr first_valid = max(0, (padded_stages - num_stages) / 2);`
(line 162).  Both operands are non-negative C++ ints, so truncating
division coincides with natural floor division. -/
def first_valid (num_stages : ℕ) : ℕ :=
  max 0 ((padded_stages num_stages - num_stages) / 2)

/-- Source: `pad_stages` (lines 147-152): zero padding along the last (stage)
dimension, via `BoundaryConditions::constant_exterior` with bounds
`[0, stages)`. -/
def pad_stages (f : ℤ → ℝ) (stages : ℤ) : ℤ → ℝ :=
  fun w => if 0 ≤ w ∧ w < stages then f w else 0

/-- The leaky-rectifier `activation(e) = max(0, e) + 1e-5f * e`
(lines 154-156). -/
def activation (e : ℝ) : ℝ := max 0 e + 1e-5 * e

/-- The std floor applied before every whitening division:
`max(1e-8f, std)` (lines 168 and 173). -/
def std_floor (σ : ℝ) : ℝ := max 1e-8 σ

/-- Source: `normalized_pipeline_features` (lines 164-168): pure definition `0.0f`
everywhere, overwritten on the reduction domain
`RDom r_s(first_valid, num_stages)` by the whitened raw feature. -/
def normalized_pipeline_features (I : CostModelInputs) (c j : ℕ) (s : ℤ) : ℝ :=
  if (first_valid I.num_stages : ℤ) ≤ s ∧
      s < (first_valid I.num_stages : ℤ) + (I.num_stages : ℤ) then
    (I.pipeline_features c j (s - (first_valid I.num_stages : ℤ)) - I.pipeline_mean c j) /
      std_floor (I.pipeline_std c j)
  else 0

/-- Source: `normalized_schedule_features` (lines 170-173): as the pipeline path,
but the raw value is transformed by `fast_log(raw + 1)` first (modelled by
`Real.log`). -/
def normalized_schedule_features (I : CostModelInputs) (n c : ℕ) (s : ℤ) : ℝ :=
  if (first_valid I.num_stages : ℤ) ≤ s ∧
      s < (first_valid I.num_stages : ℤ) + (I.num_stages : ℤ) then
    (Real.log (I.schedule_features n c (s - (first_valid I.num_stages : ℤ)) + 1) -
        I.schedule_mean c) / std_floor (I.schedule_std c)
  else 0

/-- Source: `head1_conv` (lines 184-187): bias plus accumulation over
`RDom r_head1(0, head1_w, 0, head1_h)`. -/
def head1_conv (I : CostModelInputs) (c : ℕ) (w : ℤ) : ℝ :=
  I.head1_bias c +
    ∑ x ∈ Finset.range head1_w, ∑ y ∈ Finset.range head1_h,
      I.head1_filter c x y * normalized_pipeline_features I x y w

/-- Source: `head1_relu` (lines 189-190). -/
def head1_relu (I : CostModelInputs) (c : ℕ) (w : ℤ) : ℝ :=
  activation (head1_conv I c w)

/-- Source: `head1_relu_padded = pad_stages(head1_relu, padded_stages)` (line 192). -/
def head1_relu_padded (I : CostModelInputs) (c : ℕ) : ℤ → ℝ :=
  pad_stages (head1_relu I c) (padded_stages I.num_stages)

/-- Source: `head2_conv` (lines 194-197): accumulation over `RDom r_head2(0, head2_w)`. -/
def head2_conv (I : CostModelInputs) (n c : ℕ) (w : ℤ) : ℝ :=
  I.head2_bias c +
    ∑ x ∈ Finset.range head2_w,
      I.head2_filter c x * normalized_schedule_features I n x w

/-- Source: `head2_relu` (lines 199-200). -/
def head2_relu (I : CostModelInputs) (n c : ℕ) (w : ℤ) : ℝ :=
  activation (head2_conv I n c w)

/-- Source: `head2_relu_padded = pad_stages(head2_relu, padded_stages)` (line 202). -/
def head2_relu_padded (I : CostModelInputs) (n c : ℕ) : ℤ → ℝ :=
  pad_stages (head2_relu I n c) (padded_stages I.num_stages)

/-- Source: `conv1_stage1` (lines 207-210): pipeline-head half of trunk layer 1,
accumulated over `RDom r1_stage1(0, head1_channels, 0, conv_support)`. -/
def conv1_stage1 (I : CostModelInputs) (c : ℕ) (w : ℤ) : ℝ :=
  I.bias1 c +
    ∑ x ∈ Finset.range head1_channels, ∑ y ∈ Finset.range conv_support,
      I.filter1 c x y * head1_relu_padded I x (w + y - 1)

/-- Source: `conv1_stage2` (lines 212-216): broadcasts `conv1_stage1` across the
batch and adds the schedule-head half; the filter input channel is offset
by `head1_filter.dim(0).extent()`, which `set_shape` fixes to
`head1_channels`. -/
def conv1_stage2 (I : CostModelInputs) (n c : ℕ) (w : ℤ) : ℝ :=
  conv1_stage1 I c w +
    ∑ x ∈ Finset.range head2_channels, ∑ y ∈ Finset.range conv_support,
      I.filter1 c (head1_channels + x) y * head2_relu_padded I n x (w + y - 1)

/-- Source: `relu1` (lines 218-219). -/
def relu1 (I : CostModelInputs) (n c : ℕ) (w : ℤ) : ℝ :=
  activation (conv1_stage2 I n c w)

/-- Source: `relu1_padded = pad_stages(relu1, padded_stages)` (line 221). -/
def relu1_padded (I : CostModelInputs) (n c : ℕ) : ℤ → ℝ :=
  pad_stages (relu1 I n c) (padded_stages I.num_stages)

/-- Source: `conv2` (lines 223-226), over `RDom r2(0, conv1_channels, 0, conv_support)`. -/
def conv2 (I : CostModelInputs) (n c : ℕ) (w : ℤ) : ℝ :=
  I.bias2 c +
    ∑ x ∈ Finset.range conv1_channels, ∑ y ∈ Finset.range conv_support,
      I.filter2 c x y * relu1_padded I n x (w + y - 1)

/-- Source: `relu2` (lines 228-229). -/
def relu2 (I : CostModelInputs) (n c : ℕ) (w : ℤ) : ℝ :=
  activation (conv2 I n c w)

/-- Source: `relu2_padded = pad_stages(relu2, padded_stages)` (line 232). -/
def relu2_padded (I : CostModelInputs) (n c : ℕ) : ℤ → ℝ :=
  pad_stages (relu2 I n c) (padded_stages I.num_stages)

/-- Source: `conv3` (lines 234-237), over `RDom r3(0, conv2_channels, 0, conv_support)`. -/
def conv3 (I : CostModelInputs) (n c : ℕ) (w : ℤ) : ℝ :=
  I.bias3 c +
    ∑ x ∈ Finset.range conv2_channels, ∑ y ∈ Finset.range conv_support,
      I.filter3 c x y * relu2_padded I n x (w + y - 1)

/-- Source: `relu3` (lines 239-240). -/
def relu3 (I : CostModelInputs) (n c : ℕ) (w : ℤ) : ℝ :=
  activation (conv3 I n c w)

/-- Source: `relu3_padded = pad_stages(relu3, padded_stages)` (line 243). -/
def relu3_padded (I : CostModelInputs) (n c : ℕ) : ℤ → ℝ :=
  pad_stages (relu3 I n c) (padded_stages I.num_stages)

/-- Source: `pool3(n, c, w) = 0.5f * (relu3_padded(n, c, w*2-1) + relu3_padded(n, c, w*2))`
(lines 245-246). -/
def pool3 (I : CostModelInputs) (n c : ℕ) (w : ℤ) : ℝ :=
  0.5 * (relu3_padded I n c (w * 2 - 1) + relu3_padded I n c (w * 2))

/-- Source: `pool3_padded = pad_stages(pool3, padded_stages / 2 + 1)` (line 249). -/
def pool3_padded (I : CostModelInputs) (n c : ℕ) : ℤ → ℝ :=
  pad_stages (pool3 I n c) ((padded_stages I.num_stages / 2 + 1 : ℕ) : ℤ)

/-- Source: `conv4` (lines 251-254), over `RDom r4(0, conv3_channels, 0, conv_support)`. -/
def conv4 (I : CostModelInputs) (n c : ℕ) (w : ℤ) : ℝ :=
  I.bias4 c +
    ∑ x ∈ Finset.range conv3_channels, ∑ y ∈ Finset.range conv_support,
      I.filter4 c x y * pool3_padded I n x (w + y - 1)

/-- Source: `relu4` (lines 256-257). -/
def relu4 (I : CostModelInputs) (n c : ℕ) (w : ℤ) : ℝ :=
  activation (conv4 I n c w)

/-- Source: `relu4_padded = pad_stages(relu4, padded_stages / 2 + 1)` (line 260). -/
def relu4_padded (I : CostModelInputs) (n c : ℕ) : ℤ → ℝ :=
  pad_stages (relu4 I n c) ((padded_stages I.num_stages / 2 + 1 : ℕ) : ℤ)

/-- Source: `pool4(n, c, w) = 0.5f * (relu4_padded(n, c, w*2-1) + relu4_padded(n, c, w*2))`
(lines 262-263). -/
def pool4 (I : CostModelInputs) (n c : ℕ) (w : ℤ) : ℝ :=
  0.5 * (relu4_padded I n c (w * 2 - 1) + relu4_padded I n c (w * 2))

/-- Source: `pool4_padded = pad_stages(pool4, (padded_stages + 6) / 4)` (line 266). -/
def pool4_padded (I : CostModelInputs) (n c : ℕ) : ℤ → ℝ :=
  pad_stages (pool4 I n c) (((padded_stages I.num_stages + 6) / 4 : ℕ) : ℤ)

/-- Source: `conv5` (lines 268-271), over `RDom r5(0, conv4_channels, 0, conv_support)`. -/
def conv5 (I : CostModelInputs) (n c : ℕ) (w : ℤ) : ℝ :=
  I.bias5 c +
    ∑ x ∈ Finset.range conv4_channels, ∑ y ∈ Finset.range conv_support,
      I.filter5 c x y * pool4_padded I n x (w + y - 1)

/-- Source: `relu5` (lines 273-274). -/
def relu5 (I : CostModelInputs) (n c : ℕ) (w : ℤ) : ℝ :=
  activation (conv5 I n c w)

/-- Source: `relu5_padded = pad_stages(relu5, (padded_stages + 6) / 4)` (line 277). -/
def relu5_padded (I : CostModelInputs) (n c : ℕ) : ℤ → ℝ :=
  pad_stages (relu5 I n c) (((padded_stages I.num_stages + 6) / 4 : ℕ) : ℤ)

/-- Source: `conv6` (lines 279-282): collapses the channel axis over
`RDom r6(0, conv5_channels)` with no spatial offset. -/
def conv6 (I : CostModelInputs) (n : ℕ) (w : ℤ) : ℝ :=
  I.bias6 + ∑ c ∈ Finset.range conv5_channels, I.filter6 c * relu5_padded I n c w

/-- Source: `relu6` (lines 284-285). -/
def relu6 (I : CostModelInputs) (n : ℕ) (w : ℤ) : ℝ :=
  activation (conv6 I n w)

/-- Source: `prediction(n) += relu6(n, r_reduce)` over
`RDom r_reduce(0, (padded_stages + 6) / 4)` (lines 288-290). -/
def prediction (I : CostModelInputs) (n : ℕ) : ℝ :=
  ∑ w ∈ Finset.range ((padded_stages I.num_stages + 6) / 4), relu6 I n (w : ℤ)

/-- Source: `err(n) = delta * delta` with `delta = prediction(n) - true_runtime(n)`
(lines 359-360, training branch). -/
def err (I : CostModelInputs) (n : ℕ) : ℝ :=
  (prediction I n - I.true_runtime n) * (prediction I n - I.true_runtime n)

/-- Source: `loss_output`: in training mode `sum(err(r_batch)) / batch_size`
(lines 361-363); in inference mode the constant `0.0f` (line 300). -/
def loss_output (training : Bool) (I : CostModelInputs) : ℝ :=
  match training with
  | true => (∑ n ∈ Finset.range I.batch_size, err I n) / (I.batch_size : ℝ)
  | false => 0

/-- Source: `ModelWeight<true>::backprop` (lines 40-77) for one parameter entry:
the four planes written to the `updated_*` output are, in index order,
the new weight, the smoothed derivative, the smoothed second moment and
the raw loss gradient.  The incoming plane values at indices 1 and 2 are
the caller-supplied previous ADAM moments (`undef` retains the buffer
contents).  The timestep is only read, as `timestep + 1`, inside the two
bias corrections. -/
def backprop (θ m_prev v_prev g lr : ℝ) (t : ℕ) : ℝ × ℝ × ℝ × ℝ :=
  let loss_gradient := g
  let smoothed_deriv := 0.9 * m_prev + 0.1 * loss_gradient
  let smoothed_second_moment := 0.999 * v_prev + 0.001 * loss_gradient ^ 2
  let smoothed_deriv_correction := 1 / (1 - (0.9 : ℝ) ^ (t + 1))
  let smoothed_second_moment_correction := 1 / (1 - (0.999 : ℝ) ^ (t + 1))
  let step := lr * smoothed_deriv * smoothed_deriv_correction /
    (Real.sqrt (smoothed_second_moment * smoothed_second_moment_correction) + 1e-8)
  (θ - step, smoothed_deriv, smoothed_second_moment, loss_gradient)

/-- Modelled from the spec: the error surface of the two entry points.
The generator only declares `num_stages` and `batch_size` as integer
inputs (lines 106-107); the runtime validation lives in the Halide
library, which is not part of this repository's sources, so the failure
mode is taken from spec section 7. -/
inductive CostModelError where
  | InvalidConfiguration : CostModelError
  | ShapeMismatch : CostModelError
deriving DecidableEq

/-- Modelled from the spec: the `infer` entry point of section 6.
Validation of `num_stages`/`batch_size` is absent from src (it lives in
the Halide runtime); per spec section 7 a non-positive value fails with
`InvalidConfiguration`, otherwise the generated pipeline computes the
per-batch-element predictions. -/
def infer (I : CostModelInputs) (raw_num_stages raw_batch_size : ℤ) :
    Except CostModelError (ℕ → ℝ) :=
  if raw_num_stages ≤ 0 ∨ raw_batch_size ≤ 0 then
    Except.error CostModelError.InvalidConfiguration
  else
    Except.ok fun n =>
      prediction
        { I with num_stages := raw_num_stages.toNat,
                 batch_size := raw_batch_size.toNat } n

/-- Modelled from the spec: the `trainStep` entry point of section 6, with
the same spec-section-7 validation as `infer`; on success it produces the
predictions and the training-mode loss (the weight updates follow via
`backprop` and are likewise not produced on the error path). -/
def trainStep (I : CostModelInputs) (raw_num_stages raw_batch_size : ℤ) :
    Except CostModelError ((ℕ → ℝ) × ℝ) :=
  if raw_num_stages ≤ 0 ∨ raw_batch_size ≤ 0 then
    Except.error CostModelError.InvalidConfiguration
  else
    Except.ok
      (fun n =>
        prediction
          { I with num_stages := raw_num_stages.toNat,
                   batch_size := raw_batch_size.toNat } n,
       loss_output true
          { I with num_stages := raw_num_stages.toNat,
                   batch_size := raw_batch_size.toNat })

/-- A concrete all-zero input set used to instantiate hypotheses of the
universally quantified theorems below at one explicit point. -/
def zeroInputs : CostModelInputs where
  num_stages := 22
  batch_size := 3
  pipeline_features := fun _ _ _ => 0
  schedule_features := fun _ _ _ => 0
  pipeline_mean := fun _ _ => 0
  pipeline_std := fun _ _ => 0
  schedule_mean := fun _ => 0
  schedule_std := fun _ => 0
  head1_filter := fun _ _ _ => 0
  head1_bias := fun _ => 0
  head2_filter := fun _ _ => 0
  head2_bias := fun _ => 0
  filter1 := fun _ _ _ => 0
  bias1 := fun _ => 0
  filter2 := fun _ _ _ => 0
  bias2 := fun _ => 0
  filter3 := fun _ _ _ => 0
  bias3 := fun _ => 0
  filter4 := fun _ _ _ => 0
  bias4 := fun _ => 0
  filter5 := fun _ _ _ => 0
  bias5 := fun _ => 0
  filter6 := fun _ => 0
  bias6 := 0
  learning_rate := 0
  timestep := 0
  true_runtime := fun _ => 0

/-- A concrete input set with `num_stages = 22`, all filters zero and
`bias3 = 1`, so that `relu3` is a nonzero constant and the pooling window
boundary is observable. -/
def poolProbeInputs : CostModelInputs :=
  { zeroInputs with bias3 := fun _ => 1 }

/-- C1: one `trainStep` call, for a parameter entry with value θ, gradient
g, previous moments m_prev and v_prev, learning rate lr and
caller-supplied timestep t, produces m = 0.9·m_prev + 0.1·g,
v = 0.999·v_prev + 0.001·g², and
θ_new = θ − lr·(m/(1−0.9^(t+1)))/(sqrt(v/(1−0.999^(t+1))) + 1e-8),
returning the quadruple (θ_new, m, v, g); the timestep enters only as
t + 1 inside the bias corrections and is never incremented internally. -/
theorem backprop_adam_update (θ m_prev v_prev g lr : ℝ) (t : ℕ) :
    backprop θ m_prev v_prev g lr t =
      (θ - lr * ((0.9 * m_prev + 0.1 * g) / (1 - (0.9 : ℝ) ^ (t + 1))) /
          (Real.sqrt ((0.999 * v_prev + 0.001 * g ^ 2) / (1 - (0.999 : ℝ) ^ (t + 1))) + 1e-8),
        0.9 * m_prev + 0.1 * g,
        0.999 * v_prev + 0.001 * g ^ 2,
        g) := by
  simp only [backprop, mul_one_div, mul_div_assoc]

/-- C2: in training mode, the returned loss scalar is the batch mean
(1/B)·Σ of the per-element squared errors. -/
theorem loss_output_training_is_batch_mean (I : CostModelInputs)
    (h : 1 ≤ I.batch_size) :
    loss_output true I =
      (1 / (I.batch_size : ℝ)) *
        ∑ n ∈ Finset.range I.batch_size, (prediction I n - I.true_runtime n) ^ 2 := by
  have hsum : ∑ n ∈ Finset.range I.batch_size, err I n =
      ∑ n ∈ Finset.range I.batch_size, (prediction I n - I.true_runtime n) ^ 2 :=
    Finset.sum_congr rfl fun n _ => by simp only [err]; rw [pow_two]
  show (∑ n ∈ Finset.range I.batch_size, err I n) / (I.batch_size : ℝ) = _
  rw [hsum, div_eq_mul_inv, mul_comm, one_div]

/-- Witness for C2 at the concrete all-zero inputs with batch size 3. -/
theorem loss_output_training_is_batch_mean_witness :
    1 ≤ zeroInputs.batch_size ∧
      loss_output true zeroInputs =
        (1 / (zeroInputs.batch_size : ℝ)) *
          ∑ n ∈ Finset.range zeroInputs.batch_size,
            (prediction zeroInputs n - zeroInputs.true_runtime n) ^ 2 :=
  ⟨by decide, loss_output_training_is_batch_mean zeroInputs (by decide)⟩

/-- C10: in inference mode, the loss output is defined and is the
constant 0 for every input. -/
theorem loss_output_inference_zero (I : CostModelInputs) :
    loss_output false I = 0 := rfl

/-- C6: the prediction for batch element n is the raw sum of relu6 over
stage positions w in [0, (padded_stages + 6) / 4) (integer division),
with no division by the stage count. -/
theorem prediction_sums_relu6 (I : CostModelInputs) (n : ℕ) :
    prediction I n =
      ∑ w ∈ Finset.range ((padded_stages I.num_stages + 6) / 4),
        relu6 I n (w : ℤ) := rfl

/-- C7: the pre-activation value of trunk layer 1 is bias1[c] plus the
pipeline-head contraction over filter1 input channels [0,24) (independent
of the batch element) plus the schedule-head contraction over filter1
input channels [24,48). -/
theorem conv1_stage2_channel_split (I : CostModelInputs) (n c : ℕ) (w : ℤ) :
    conv1_stage2 I n c w =
      I.bias1 c +
        (∑ x ∈ Finset.range 24, ∑ k ∈ Finset.range 3,
          I.filter1 c x k * head1_relu_padded I x (w + k - 1)) +
        ∑ x ∈ Finset.range 24, ∑ k ∈ Finset.range 3,
          I.filter1 c (24 + x) k * head2_relu_padded I n x (w + k - 1) := rfl

/-- C3: for num_stages ≥ 1 the pipeline normalizer pads to
padded_stages = max(num_stages, 22) with
first_valid = ⌊(padded_stages − num_stages)/2⌋, whitens inside the window
[first_valid, first_valid + num_stages) and is exactly 0 outside it; in
particular first_valid is 0 at 22 stages, 6 at 10 stages, and
padded_stages = 30 with first_valid = 0 at 30 stages. -/
theorem normalized_pipeline_features_spec (I : CostModelInputs)
    (h : 1 ≤ I.num_stages) :
    padded_stages I.num_stages = max I.num_stages 22 ∧
    first_valid I.num_stages = (padded_stages I.num_stages - I.num_stages) / 2 ∧
    (∀ c j : ℕ, ∀ s : ℤ,
      ((first_valid I.num_stages : ℤ) ≤ s ∧
          s < (first_valid I.num_stages : ℤ) + (I.num_stages : ℤ) →
        normalized_pipeline_features I c j s =
          (I.pipeline_features c j (s - (first_valid I.num_stages : ℤ)) -
              I.pipeline_mean c j) / max (I.pipeline_std c j) 1e-8) ∧
      (¬((first_valid I.num_stages : ℤ) ≤ s ∧
          s < (first_valid I.num_stages : ℤ) + (I.num_stages : ℤ)) →
        normalized_pipeline_features I c j s = 0)) ∧
    first_valid 22 = 0 ∧ first_valid 10 = 6 ∧
    padded_stages 30 = 30 ∧ first_valid 30 = 0 := by
  refine ⟨rfl, ?_, ?_, by decide, by decide, by decide, by decide⟩
  · simp [first_valid]
  · intro c j s
    constructor
    · intro hs
      simp only [normalized_pipeline_features, std_floor, if_pos hs]
      rw [max_comm]
    · intro hs
      simp only [normalized_pipeline_features, if_neg hs]

/-- Witness for C3: the in-window formula at the concrete all-zero inputs
(num_stages = 22, first_valid = 0) at channel 0, feature 0, stage 0. -/
theorem normalized_pipeline_features_spec_witness :
    1 ≤ zeroInputs.num_stages ∧
      normalized_pipeline_features zeroInputs 0 0 0 =
        (zeroInputs.pipeline_features 0 0 (0 - (first_valid zeroInputs.num_stages : ℤ)) -
            zeroInputs.pipeline_mean 0 0) / max (zeroInputs.pipeline_std 0 0) 1e-8 :=
  ⟨by decide,
    ((normalized_pipeline_features_spec zeroInputs (by decide)).2.2.1 0 0 0).1 (by decide)⟩

/-- C4: inside the valid window, the schedule normalization path outputs
(log(raw + 1) − mean[c]) / max(std[c], 1e-8). -/
theorem normalized_schedule_features_spec (I : CostModelInputs) (n c : ℕ) (s : ℤ)
    (hs : (first_valid I.num_stages : ℤ) ≤ s ∧
      s < (first_valid I.num_stages : ℤ) + (I.num_stages : ℤ)) :
    normalized_schedule_features I n c s =
      (Real.log (I.schedule_features n c (s - (first_valid I.num_stages : ℤ)) + 1) -
          I.schedule_mean c) / max (I.schedule_std c) 1e-8 := by
  simp only [normalized_schedule_features, std_floor, if_pos hs]
  rw [max_comm]

/-- Witness for C4 at the concrete all-zero inputs, batch element 0,
channel 0, stage 0. -/
theorem normalized_schedule_features_spec_witness :
    ((first_valid zeroInputs.num_stages : ℤ) ≤ 0 ∧
        (0 : ℤ) < (first_valid zeroInputs.num_stages : ℤ) + (zeroInputs.num_stages : ℤ)) ∧
      normalized_schedule_features zeroInputs 0 0 0 =
        (Real.log (zeroInputs.schedule_features 0 0 (0 - (first_valid zeroInputs.num_stages : ℤ)) + 1) -
            zeroInputs.schedule_mean 0) / max (zeroInputs.schedule_std 0) 1e-8 :=
  ⟨by decide, normalized_schedule_features_spec zeroInputs 0 0 0 (by decide)⟩

/-- C8: when the supplied std is ≤ 0 the effective divisor of both
whitening paths is exactly 1e-8, and the floored divisor is positive (so
nonzero) for every possible std input: the whitening divisions are
total. -/
theorem std_floor_total (I : CostModelInputs) (c j n : ℕ) (s : ℤ)
    (hp : I.pipeline_std c j ≤ 0) (hq : I.schedule_std c ≤ 0)
    (hs : (first_valid I.num_stages : ℤ) ≤ s ∧
      s < (first_valid I.num_stages : ℤ) + (I.num_stages : ℤ)) :
    normalized_pipeline_features I c j s =
      (I.pipeline_features c j (s - (first_valid I.num_stages : ℤ)) -
          I.pipeline_mean c j) / 1e-8 ∧
    normalized_schedule_features I n c s =
      (Real.log (I.schedule_features n c (s - (first_valid I.num_stages : ℤ)) + 1) -
          I.schedule_mean c) / 1e-8 ∧
    (∀ σ : ℝ, 0 < std_floor σ ∧ std_floor σ ≠ 0) := by
  have hfloor : ∀ σ : ℝ, σ ≤ 0 → std_floor σ = 1e-8 := by
    intro σ hσ
    exact max_eq_left (hσ.trans (by norm_num))
  refine ⟨?_, ?_, ?_⟩
  · simp only [normalized_pipeline_features, if_pos hs, hfloor _ hp]
  · simp only [normalized_schedule_features, if_pos hs, hfloor _ hq]
  · intro σ
    have hpos : (0 : ℝ) < std_floor σ := lt_max_of_lt_left (by norm_num)
    exact ⟨hpos, ne_of_gt hpos⟩

/-- Witness for C8 at the concrete all-zero inputs, whose stds are 0. -/
theorem std_floor_total_witness :
    zeroInputs.pipeline_std 0 0 ≤ 0 ∧
      normalized_pipeline_features zeroInputs 0 0 0 =
        (zeroInputs.pipeline_features 0 0 (0 - (first_valid zeroInputs.num_stages : ℤ)) -
            zeroInputs.pipeline_mean 0 0) / 1e-8 :=
  ⟨le_refl 0,
    (std_floor_total zeroInputs 0 0 0 0 (le_refl 0) (le_refl 0) (by decide)).1⟩

/-- C9: any call to `infer` or `trainStep` with num_stages ≤ 0 or
batch_size ≤ 0 fails with `InvalidConfiguration` and produces no
prediction, loss, or weight update. -/
theorem entry_points_reject_invalid_config (I : CostModelInputs)
    (raw_num_stages raw_batch_size : ℤ)
    (h : raw_num_stages ≤ 0 ∨ raw_batch_size ≤ 0) :
    infer I raw_num_stages raw_batch_size =
        Except.error CostModelError.InvalidConfiguration ∧
      trainStep I raw_num_stages raw_batch_size =
        Except.error CostModelError.InvalidConfiguration := by
  constructor
  · simp only [infer]
    rw [if_pos h]
  · simp only [trainStep]
    rw [if_pos h]

/-- Witness for C9 at num_stages = 0, batch_size = 1. -/
theorem entry_points_reject_invalid_config_witness :
    ((0 : ℤ) ≤ 0 ∨ (1 : ℤ) ≤ 0) ∧
      (infer zeroInputs 0 1 = Except.error CostModelError.InvalidConfiguration ∧
        trainStep zeroInputs 0 1 = Except.error CostModelError.InvalidConfiguration) :=
  ⟨by decide, entry_points_reject_invalid_config zeroInputs 0 1 (by decide)⟩

/-- C5 counterexample: the claim re-pads the first pooling output to the
window [0, ⌈padded_stages/2⌉), i.e. asserts pool3_padded is 0 at every
stage position outside it.  At num_stages = 22 (so padded_stages = 22,
claimed extent ⌈22/2⌉ = 11) with all filters zero and bias3 = 1, the code
re-pads to 22/2 + 1 = 12, and position w = 11 — outside the claimed
window — holds 0.5·(relu3_padded(21) + relu3_padded(22)) =
0.5·(1 + 1e-5) ≠ 0. -/
theorem pool3_padded_ceil_half_counterexample :
    ¬ (∀ w : ℤ,
        ¬(0 ≤ w ∧ w < (((padded_stages poolProbeInputs.num_stages + 1) / 2 : ℕ) : ℤ)) →
          pool3_padded poolProbeInputs 0 0 w = 0) := by
  intro hclaim
  have h11 : pool3_padded poolProbeInputs 0 0 11 = 0 := by
    refine hclaim 11 ?_
    decide
  have hval : pool3_padded poolProbeInputs 0 0 11 =
      0.5 * ((max 0 1 + 1e-5 * 1) + 0) := by
    simp [pool3_padded, pad_stages, pool3, relu3_padded, relu3, conv3,
      activation, poolProbeInputs, zeroInputs, padded_stages]
  rw [hval] at h11
  rw [max_eq_right (by norm_num : (0 : ℝ) ≤ 1)] at h11
  norm_num at h11

/-- C5 amended: each pooling step computes
pool[n,c,w] = 0.5·(in[n,c,2w−1] + in[n,c,2w]); the re-padding window
extent after the first pooling is padded_stages/2 + 1 and after the
second (padded_stages + 6)/4 (integer division; the latter equals
(padded_stages/2 + 1)/2 + 1, i.e. each step halves the previous extent
and adds one rather than rounding the half up), with zero re-padding
outside the new smaller window. -/
theorem pooling_window_spec (I : CostModelInputs) (n c : ℕ) (w : ℤ) :
    pool3 I n c w =
        0.5 * (relu3_padded I n c (2 * w - 1) + relu3_padded I n c (2 * w)) ∧
    pool4 I n c w =
        0.5 * (relu4_padded I n c (2 * w - 1) + relu4_padded I n c (2 * w)) ∧
    (0 ≤ w ∧ w < ((padded_stages I.num_stages / 2 + 1 : ℕ) : ℤ) →
      pool3_padded I n c w = pool3 I n c w) ∧
    (¬(0 ≤ w ∧ w < ((padded_stages I.num_stages / 2 + 1 : ℕ) : ℤ)) →
      pool3_padded I n c w = 0) ∧
    (0 ≤ w ∧ w < (((padded_stages I.num_stages + 6) / 4 : ℕ) : ℤ) →
      pool4_padded I n c w = pool4 I n c w) ∧
    (¬(0 ≤ w ∧ w < (((padded_stages I.num_stages + 6) / 4 : ℕ) : ℤ)) →
      pool4_padded I n c w = 0) ∧
    (padded_stages I.num_stages + 6) / 4 = (padded_stages I.num_stages / 2 + 1) / 2 + 1 := by
  refine ⟨?_, ?_, ?_, ?_, ?_, ?_, ?_⟩
  · rw [pool3, mul_comm w 2]
  · rw [pool4, mul_comm w 2]
  · intro hw
    simp only [pool3_padded, pad_stages, if_pos hw]
  · intro hw
    simp only [pool3_padded, pad_stages, if_neg hw]
  · intro hw
    simp only [pool4_padded, pad_stages, if_pos hw]
  · intro hw
    simp only [pool4_padded, pad_stages, if_neg hw]
  · omega

/-- Witness for the amended C5: outside the code's re-padding windows
(stage position −1) both pooled tensors are exactly zero, at the concrete
all-zero inputs. -/
theorem pooling_window_spec_witness :
    (¬(0 ≤ (-1 : ℤ) ∧
        (-1 : ℤ) < ((padded_stages zeroInputs.num_stages / 2 + 1 : ℕ) : ℤ))) ∧
      pool3_padded zeroInputs 0 0 (-1) = 0 ∧ pool4_padded zeroInputs 0 0 (-1) = 0 :=
  ⟨by decide,
    (pooling_window_spec zeroInputs 0 0 (-1)).2.2.2.1 (by decide),
    (pooling_window_spec zeroInputs 0 0 (-1)).2.2.2.2.2.1 (by decide)⟩

end

end CostModelGen
